import Mathlib

/-!
Verification of the EUMR merger-compliance evaluation engine
(services/ticker_evaluation.py) against its specification.

Monetary amounts are modelled as rationals; the geographic revenue
breakdown (a pandas object indexed by region name in the source) is
modelled as an association list from region name to revenue, with
`Option` capturing the `None` case.
-/

namespace TickerEval

abbrev Money := ℚ

/-- The ordered preference list of EU region keys
(`eu_regions = ['Europe', 'EU', 'EMEA']`). -/
def eu_regions : List String := ["Europe", "EU", "EMEA"]

/-- The loop at lines 149-153 of the source: `eu_revenue` starts at `0`,
and the first region of the preference list present in the breakdown
index supplies the value (`break`). -/
def regionLookup : List String → List (String × Money) → Money
  | [], _ => 0
  | r :: rs, geo =>
    match geo.lookup r with
    | some v => v
    | none => regionLookup rs geo

/-- `calculate_eu_revenue` (lines 144-158): if a breakdown is present and
non-empty, scan the preference list (value `0` when no key matches);
otherwise estimate EU revenue as 30% of total. The `estimated` flag of
the returned notes dict is literally `geo_revenue is None`. -/
def calculate_eu_revenue (revenue : Money)
    (geo_revenue : Option (List (String × Money))) : Money × Bool :=
  let eu_revenue :=
    match geo_revenue with
    | some geo =>
      if geo.isEmpty then revenue * (3 / 10)
      else regionLookup eu_regions geo
    | none => revenue * (3 / 10)
  (eu_revenue, geo_revenue.isNone)

/-- The data the Financial Data Provider (yfinance) holds for one ticker:
the `longName` and `marketCap` and `currency` entries of `info`, the most
recent annual financial statement column (label to value), and the
optional geographic revenue breakdown. -/
structure ProviderData where
  longName : Option String
  financials : List (String × Money)
  marketCap : Option Money
  geoRevenue : Option (List (String × Money))
  currency : Option String

/-- The company profile assembled by `get_company_financials`
(lines 113-142). -/
structure CompanyFinancials where
  name : String
  ticker : String
  total_revenue : Money
  market_cap : Money
  geo_revenue : Option (List (String × Money))
  currency : String

/-- `get_company_financials` (lines 113-142): an empty financial
statement raises `ValueError("Could not fetch financial data for ...")`;
otherwise the profile is assembled with `info.get` defaults. -/
def get_company_financials (ticker : String) (d : ProviderData) :
    Except String CompanyFinancials :=
  if d.financials.isEmpty then
    Except.error ("Could not fetch financial data for " ++ ticker)
  else
    Except.ok
      { name := d.longName.getD ticker
        ticker := ticker
        total_revenue := (d.financials.lookup "Total Revenue").getD 0
        market_cap := d.marketCap.getD 0
        geo_revenue := d.geoRevenue
        currency := d.currency.getD "USD" }

/-- The fixed exchange rate `eur_usd_rate = 1.1` (line 182). -/
def eur_usd_rate : Money := 11 / 10

/-- The primary threshold test, EUMR Art. 1(2) (lines 188-192). -/
def primaryThresholdCheck
    (combined_worldwide_eur company1_eu_eur company2_eu_eur : Money) : Bool :=
  decide (combined_worldwide_eur > 5000000000) &&
  decide (company1_eu_eur > 250000000) &&
  decide (company2_eu_eur > 250000000)

/-- The alternative threshold test, EUMR Art. 1(3) (lines 195-200). -/
def alternativeThresholdCheck
    (combined_worldwide_eur company1_eu_eur company2_eu_eur : Money) : Bool :=
  decide (combined_worldwide_eur > 2500000000) &&
  decide (company1_eu_eur > 100000000) &&
  decide (company2_eu_eur > 100000000)

/-- One per-company block of the analysis dict (lines 204-219); the
notes dict `{'eu_revenue_estimated': ...}` is the Bool field. -/
structure CompanySection where
  name : String
  ticker : String
  worldwide_revenue : Money
  eu_revenue : Money
  market_cap : Money
  eu_revenue_estimated : Bool
  deriving DecidableEq

/-- The `combined_metrics` block (lines 220-225). -/
structure CombinedMetrics where
  worldwide_revenue_usd : Money
  worldwide_revenue_eur : Money
  eu_revenue_eur : Money
  combined_market_cap : Money
  deriving DecidableEq

/-- One entry of the `thresholds` sub-dict (lines 230-239). -/
structure ThresholdPair where
  worldwide_revenue : Money
  eu_revenue : Money
  deriving DecidableEq

/-- The `thresholds` sub-dict (lines 230-239). -/
structure Thresholds where
  primary : ThresholdPair
  alternative : ThresholdPair
  deriving DecidableEq

/-- The `eumr_analysis` block (lines 226-247). -/
structure EumrAnalysis where
  primary_threshold_met : Bool
  alternative_threshold_met : Bool
  notification_required : Bool
  thresholds : Thresholds
  notes : List String
  deriving DecidableEq

/-- The full analysis dict returned by `analyze_merger_eumr_compliance`
(lines 203-248). -/
structure MergerAnalysis where
  company1 : CompanySection
  company2 : CompanySection
  combined_metrics : CombinedMetrics
  eumr_analysis : EumrAnalysis
  deriving DecidableEq

/-- The fixed advisory notes list (lines 240-246); the last entry renders
the literal rate `1.1`. -/
def advisoryNotes : List String :=
  ["Analysis based on most recent financial data",
   "EU revenue estimates may need verification",
   "Three-member state criterion requires detailed country breakdown",
   "Exchange rates should be verified at time of transaction",
   "Current EUR/USD rate used: 1.1"]

/-- The pure core of `analyze_merger_eumr_compliance` (lines 165-250):
from the two company profiles, compute EU revenues, aggregate, convert
to EUR, evaluate both threshold regimes and assemble the analysis. -/
def buildAnalysis (company1_data company2_data : CompanyFinancials) :
    MergerAnalysis :=
  let r1 := calculate_eu_revenue company1_data.total_revenue company1_data.geo_revenue
  let r2 := calculate_eu_revenue company2_data.total_revenue company2_data.geo_revenue
  let company1_eu_revenue := r1.1
  let company2_eu_revenue := r2.1
  let combined_worldwide_revenue :=
    company1_data.total_revenue + company2_data.total_revenue
  let combined_eu_revenue := company1_eu_revenue + company2_eu_revenue
  let combined_market_cap := company1_data.market_cap + company2_data.market_cap
  let combined_worldwide_eur := combined_worldwide_revenue / eur_usd_rate
  let company1_eu_eur := company1_eu_revenue / eur_usd_rate
  let company2_eu_eur := company2_eu_revenue / eur_usd_rate
  let primary_threshold_met :=
    primaryThresholdCheck combined_worldwide_eur company1_eu_eur company2_eu_eur
  let alternative_threshold_met :=
    alternativeThresholdCheck combined_worldwide_eur company1_eu_eur company2_eu_eur
  { company1 :=
      { name := company1_data.name
        ticker := company1_data.ticker
        worldwide_revenue := company1_data.total_revenue
        eu_revenue := company1_eu_revenue
        market_cap := company1_data.market_cap
        eu_revenue_estimated := r1.2 }
    company2 :=
      { name := company2_data.name
        ticker := company2_data.ticker
        worldwide_revenue := company2_data.total_revenue
        eu_revenue := company2_eu_revenue
        market_cap := company2_data.market_cap
        eu_revenue_estimated := r2.2 }
    combined_metrics :=
      { worldwide_revenue_usd := combined_worldwide_revenue
        worldwide_revenue_eur := combined_worldwide_eur
        eu_revenue_eur := combined_eu_revenue / eur_usd_rate
        combined_market_cap := combined_market_cap }
    eumr_analysis :=
      { primary_threshold_met := primary_threshold_met
        alternative_threshold_met := alternative_threshold_met
        notification_required := primary_threshold_met || alternative_threshold_met
        thresholds :=
          { primary := { worldwide_revenue := 5000000000, eu_revenue := 250000000 }
            alternative := { worldwide_revenue := 2500000000, eu_revenue := 100000000 } }
        notes := advisoryNotes } }

/-- `analyze_merger_eumr_compliance` (lines 99-253): fetch both
profiles (each may fail on an empty statement), then build the analysis;
any raised error is rewrapped by the outer handler (lines 252-253). -/
def analyze_merger_eumr_compliance (company1_ticker company2_ticker : String)
    (d1 d2 : ProviderData) : Except String MergerAnalysis :=
  match get_company_financials company1_ticker d1 with
  | Except.error e => Except.error ("Error performing EUMR analysis: " ++ e)
  | Except.ok company1_data =>
    match get_company_financials company2_ticker d2 with
    | Except.error e => Except.error ("Error performing EUMR analysis: " ++ e)
    | Except.ok company2_data =>
      Except.ok (buildAnalysis company1_data company2_data)

/-! ### Ticker resolver (`find_ticker`, lines 8-73)

The external world the resolver touches is abstracted into an
environment: the companies JSON file (whose load may fail), the
per-ticker `info` long-name fetch (which may raise), and the
concatenated index constituent lists (whose fetch may raise). -/

/-- The environment of external effects for `find_ticker`: an
`Except.error` models a raised exception carrying `str(e)`. -/
structure TickerEnv where
  companiesFile : Except String (List (String × String))
  tickerLongName : String → Except String (Option String)
  indexTickers : Except String (List String)

/-- The legal-entity suffix list of `find_ticker` (lines 20-21). -/
def suffixes : List String :=
  [" Inc", " Inc.", " Corporation", " Corp", " Corp.",
   " Ltd", " Ltd.", " Limited", " LLC", " Co", " Co."]

/-- Python substring containment `needle in hay`. -/
def strContains (hay needle : String) : Bool :=
  needle.isEmpty || (hay.splitOn needle).length ≥ 2

/-- The body of the outer `try` of `find_ticker` (lines 18-70): a
directory hit returns the single candidate; otherwise the cleaned name
is matched against the index universe, where the inner `try` swallows a
failed universe fetch (returning the empty `results`) and per-candidate
fetch failures are skipped. -/
def find_ticker_run (company_name : String) (env : TickerEnv) :
    Except String (List (String × String)) :=
  match env.companiesFile with
  | Except.error e => Except.error e
  | Except.ok common_companies =>
    let company_check := company_name.toLower.trim
    match common_companies.lookup company_check with
    | some ticker =>
      match env.tickerLongName ticker with
      | Except.error e => Except.error e
      | Except.ok longName =>
        Except.ok [(ticker, longName.getD company_name)]
    | none =>
      let clean_name :=
        suffixes.foldl (fun s suffix => s.replace suffix "") company_name.trim
      match env.indexTickers with
      | Except.error _ => Except.ok []
      | Except.ok tickers =>
        let potential_matches := tickers.foldl (fun acc t =>
          match env.tickerLongName t with
          | Except.error _ => acc
          | Except.ok longName =>
            let company_info := (longName.getD "").toLower
            if strContains company_info clean_name.toLower ||
               strContains clean_name.toLower company_info then
              acc ++ [(t, longName.getD "")]
            else acc) []
        if potential_matches.isEmpty then Except.ok []
        else Except.ok potential_matches

/-- `find_ticker` (lines 8-73): the outer `except` turns any escaped
exception into the sentinel `[("Error", str(e))]`. -/
def find_ticker (company_name : String) (env : TickerEnv) :
    List (String × String) :=
  match find_ticker_run company_name env with
  | Except.ok results => results
  | Except.error e => [("Error", e)]

/-! ### Report generator (`generate_merger_report`, lines 255-294) -/

/-- Insert a thousands separator after every third digit of a reversed
digit list (the `,` option of the Python format spec). -/
def groupRev : List Char → List Char
  | c1 :: c2 :: c3 :: rest =>
    if rest.isEmpty then [c1, c2, c3]
    else c1 :: c2 :: c3 :: ',' :: groupRev rest
  | l => l

/-- Model of the Python format spec `,.2f`: two decimal places and
comma-grouped integer digits. -/
def formatMoney (q : Money) : String :=
  let cents : ℤ := ⌊q * 100 + 1 / 2⌋
  let sign := if cents < 0 then "-" else ""
  let n := cents.natAbs
  let intDigits := (Nat.toDigits 10 (n / 100)).reverse
  let intStr := String.mk (groupRev intDigits).reverse
  let frac := n % 100
  let fracStr := (if frac < 10 then "0" else "") ++ toString frac
  sign ++ intStr ++ "." ++ fracStr

/-- The per-company block of the report (lines 263-268 and 270-275). -/
def companyBlock (label : String) (c : CompanySection) : String :=
  "Company " ++ label ++ ": " ++ c.name ++ " (" ++ c.ticker ++ ")\n" ++
  "-------------------------------------------------------------------------\n" ++
  "Worldwide Revenue: $" ++ formatMoney c.worldwide_revenue ++ "\n" ++
  "EU Revenue: $" ++ formatMoney c.eu_revenue ++ "\n" ++
  "Market Cap: $" ++ formatMoney c.market_cap ++ "\n" ++
  (if c.eu_revenue_estimated then " (EU Revenue Estimated)" else "") ++ "\n"

/-- `generate_merger_report` (lines 255-294): the deterministic
multi-section plain-text report. -/
def generate_merger_report (analysis : MergerAnalysis) : String :=
  "\nMerger EUMR Compliance Analysis Report\n" ++
  "====================================\n\n" ++
  companyBlock "1" analysis.company1 ++ "\n" ++
  companyBlock "2" analysis.company2 ++ "\n" ++
  "Combined Metrics\n--------------\n" ++
  "Worldwide Revenue (USD): $" ++
    formatMoney analysis.combined_metrics.worldwide_revenue_usd ++ "\n" ++
  "Worldwide Revenue (EUR): EUR" ++
    formatMoney analysis.combined_metrics.worldwide_revenue_eur ++ "\n" ++
  "Combined EU Revenue (EUR): EUR" ++
    formatMoney analysis.combined_metrics.eu_revenue_eur ++ "\n" ++
  "Combined Market Cap: $" ++
    formatMoney analysis.combined_metrics.combined_market_cap ++ "\n\n" ++
  "EUMR Compliance Analysis\n----------------------\n" ++
  "Primary Threshold (EUR5B worldwide, EUR250M EU each): " ++
    (if analysis.eumr_analysis.primary_threshold_met then "Met" else "Not Met") ++ "\n" ++
  "Alternative Threshold (EUR2.5B worldwide, EUR100M EU each): " ++
    (if analysis.eumr_analysis.alternative_threshold_met then "Met" else "Not Met") ++ "\n\n" ++
  "EUMR Notification Required: " ++
    (if analysis.eumr_analysis.notification_required then "YES" else "NO") ++ "\n\n" ++
  "Important Notes:\n" ++
  String.intercalate "\n"
    (analysis.eumr_analysis.notes.map (fun note => "- " ++ note)) ++ "\n"

/-! ### Sample data used by witness theorems -/

/-- Provider data for a first sample company (no geographic breakdown). -/
def sample_d1 : ProviderData :=
  { longName := some "Alpha Corp", financials := [("Total Revenue", 6000000000)],
    marketCap := some 1000000000, geoRevenue := none, currency := some "USD" }

/-- Provider data for a second sample company (no geographic breakdown). -/
def sample_d2 : ProviderData :=
  { longName := some "Beta Corp", financials := [("Total Revenue", 5000000000)],
    marketCap := some 2000000000, geoRevenue := none, currency := some "USD" }

/-- The profile `get_company_financials` assembles from `sample_d1`. -/
def sample_c1 : CompanyFinancials :=
  { name := "Alpha Corp", ticker := "AAA", total_revenue := 6000000000,
    market_cap := 1000000000, geo_revenue := none, currency := "USD" }

/-- The profile `get_company_financials` assembles from `sample_d2`. -/
def sample_c2 : CompanyFinancials :=
  { name := "Beta Corp", ticker := "BBB", total_revenue := 5000000000,
    market_cap := 2000000000, geo_revenue := none, currency := "USD" }

/-- Provider data with an empty annual financial statement. -/
def empty_statement_data : ProviderData :=
  { longName := some "Ghost Corp", financials := [], marketCap := some 0,
    geoRevenue := none, currency := some "USD" }

/-- A resolver environment whose companies-directory file fails to load. -/
def fail_env : TickerEnv :=
  { companiesFile := Except.error "No such file or directory: companies_data.json",
    tickerLongName := fun _ => Except.ok none,
    indexTickers := Except.ok [] }

/-! ### Helper lemmas -/

/-- When no region of the preference list occurs in the breakdown, the
scan leaves the initial value `0`. -/
theorem regionLookup_eq_zero_of_none (rs : List String)
    (geo : List (String × Money)) (h : ∀ r ∈ rs, geo.lookup r = none) :
    regionLookup rs geo = 0 := by
  induction rs with
  | nil => rfl
  | cons r rs ih =>
    have hr : geo.lookup r = none := h r (List.mem_cons_self r rs)
    simp only [regionLookup, hr]
    exact ih fun x hx => h x (List.mem_cons_of_mem r hx)

/-! ### Claim theorems -/

/-- Claim C1: whenever the merger evaluation succeeds, the verdict
satisfies `notification_required = (primary_met || alternative_met)`. -/
theorem notification_required_invariant (t1 t2 : String) (d1 d2 : ProviderData)
    (a : MergerAnalysis)
    (h : analyze_merger_eumr_compliance t1 t2 d1 d2 = Except.ok a) :
    a.eumr_analysis.notification_required =
      (a.eumr_analysis.primary_threshold_met ||
       a.eumr_analysis.alternative_threshold_met) := by
  unfold analyze_merger_eumr_compliance at h
  cases h1 : get_company_financials t1 d1 with
  | error e => rw [h1] at h; cases h
  | ok c1 =>
    rw [h1] at h
    cases h2 : get_company_financials t2 d2 with
    | error e => rw [h2] at h; cases h
    | ok c2 =>
      rw [h2] at h
      injection h with h3
      subst h3
      rfl

/-- Witness for C1 at concrete provider data. -/
theorem notification_required_invariant_witness :
    (buildAnalysis sample_c1 sample_c2).eumr_analysis.notification_required =
      ((buildAnalysis sample_c1 sample_c2).eumr_analysis.primary_threshold_met ||
       (buildAnalysis sample_c1 sample_c2).eumr_analysis.alternative_threshold_met) :=
  notification_required_invariant "AAA" "BBB" sample_d1 sample_d2
    (buildAnalysis sample_c1 sample_c2) rfl

/-- Claim C2: the primary flag holds iff combined worldwide EUR revenue
strictly exceeds five billion and each company EU EUR revenue strictly
exceeds 250 million; the alternative flag holds iff combined worldwide
EUR revenue strictly exceeds 2.5 billion and each company EU EUR revenue
strictly exceeds 100 million. -/
theorem threshold_flags_iff (c1 c2 : CompanyFinancials) :
    ((buildAnalysis c1 c2).eumr_analysis.primary_threshold_met = true ↔
      ((c1.total_revenue + c2.total_revenue) / eur_usd_rate > 5000000000 ∧
       (calculate_eu_revenue c1.total_revenue c1.geo_revenue).1 / eur_usd_rate
         > 250000000 ∧
       (calculate_eu_revenue c2.total_revenue c2.geo_revenue).1 / eur_usd_rate
         > 250000000)) ∧
    ((buildAnalysis c1 c2).eumr_analysis.alternative_threshold_met = true ↔
      ((c1.total_revenue + c2.total_revenue) / eur_usd_rate > 2500000000 ∧
       (calculate_eu_revenue c1.total_revenue c1.geo_revenue).1 / eur_usd_rate
         > 100000000 ∧
       (calculate_eu_revenue c2.total_revenue c2.geo_revenue).1 / eur_usd_rate
         > 100000000)) := by
  constructor <;>
    simp [buildAnalysis, primaryThresholdCheck, alternativeThresholdCheck,
      Bool.and_eq_true, decide_eq_true_eq, and_assoc]

/-- Claim C3: with no breakdown the estimator returns 30% of worldwide
revenue flagged estimated; with a breakdown containing the key Europe it
returns exactly that value flagged not estimated, the preference order
being Europe, EU, EMEA. -/
theorem calculate_eu_revenue_policy (revenue v : Money)
    (geo : List (String × Money)) (h : geo.lookup "Europe" = some v) :
    calculate_eu_revenue revenue none = (revenue * (3 / 10), true) ∧
    calculate_eu_revenue revenue (some geo) = (v, false) ∧
    eu_regions = ["Europe", "EU", "EMEA"] := by
  refine ⟨rfl, ?_, rfl⟩
  have hne : geo.isEmpty = false := by
    cases geo with
    | nil => simp at h
    | cons a l => rfl
  simp [calculate_eu_revenue, hne, eu_regions, regionLookup, h]

/-- Witness for C3 at a concrete breakdown containing Europe. -/
theorem calculate_eu_revenue_policy_witness :
    calculate_eu_revenue 100 none = (100 * (3 / 10), true) ∧
    calculate_eu_revenue 100 (some [("Europe", 9), ("EMEA", 7)]) = (9, false) ∧
    eu_regions = ["Europe", "EU", "EMEA"] :=
  calculate_eu_revenue_policy 100 9 [("Europe", 9), ("EMEA", 7)] rfl

/-- Counterexample to C4: a present non-empty breakdown with no
preferred key yields value 0 flagged not estimated, not the 30% estimate
flagged estimated. -/
theorem nonmatching_breakdown_counterexample :
    calculate_eu_revenue 100 (some [("Asia", 40)]) ≠ (100 * (3 / 10), true) := by
  intro hcontra
  have h2 := congrArg Prod.snd hcontra
  simp [calculate_eu_revenue] at h2

/-- Claim C4 amended: with a present non-empty breakdown containing none
of the keys Europe, EU, EMEA, the estimator returns eu_revenue 0 with
estimated false (the 30% estimate is not applied and the flag stays
false because the breakdown is not None). -/
theorem nonmatching_breakdown_result (revenue : Money)
    (geo : List (String × Money)) (hne : geo ≠ [])
    (h : ∀ r ∈ eu_regions, geo.lookup r = none) :
    calculate_eu_revenue revenue (some geo) = (0, false) := by
  have hE : geo.isEmpty = false := by
    cases geo with
    | nil => exact absurd rfl hne
    | cons a l => rfl
  simp [calculate_eu_revenue, hE, regionLookup_eq_zero_of_none eu_regions geo h]

/-- Witness for the amended C4 at a concrete non-matching breakdown. -/
theorem nonmatching_breakdown_result_witness :
    calculate_eu_revenue 100 (some [("Asia", 40)]) = (0, false) :=
  nonmatching_breakdown_result 100 [("Asia", 40)] (by decide) (by decide)

/-- Claim C5: an empty annual financial statement for either ticker
makes the merger evaluation return the financial-data-unavailable error
for that ticker, hence no analysis value. -/
theorem analyze_fails_on_empty_statement (t1 t2 : String) (d1 d2 : ProviderData)
    (h : d1.financials.isEmpty = true ∨ d2.financials.isEmpty = true) :
    analyze_merger_eumr_compliance t1 t2 d1 d2 =
      Except.error
        ("Error performing EUMR analysis: " ++
          ("Could not fetch financial data for " ++ t1)) ∨
    analyze_merger_eumr_compliance t1 t2 d1 d2 =
      Except.error
        ("Error performing EUMR analysis: " ++
          ("Could not fetch financial data for " ++ t2)) := by
  rcases h with h1 | h2
  · left
    unfold analyze_merger_eumr_compliance get_company_financials
    simp [h1]
  · by_cases h1 : d1.financials.isEmpty
    · left
      unfold analyze_merger_eumr_compliance get_company_financials
      simp [h1]
    · right
      unfold analyze_merger_eumr_compliance get_company_financials
      simp [h1, h2]

/-- Witness for C5 at provider data with an empty statement. -/
theorem analyze_fails_on_empty_statement_witness :
    analyze_merger_eumr_compliance "GST" "AAA" empty_statement_data sample_d1 =
      Except.error
        ("Error performing EUMR analysis: " ++
          ("Could not fetch financial data for " ++ "GST")) ∨
    analyze_merger_eumr_compliance "GST" "AAA" empty_statement_data sample_d1 =
      Except.error
        ("Error performing EUMR analysis: " ++
          ("Could not fetch financial data for " ++ "AAA")) :=
  analyze_fails_on_empty_statement "GST" "AAA" empty_statement_data sample_d1
    (Or.inl rfl)

/-- Claim C6: with the combined worldwide EUR revenue held fixed at a
passing value (implied by the regime flag being true), dropping the EU
EUR revenue of either company to at or below the per-company threshold
turns that regime flag from true to false; the drop is a strict
decrease. -/
theorem threshold_flag_monotone (ww e1 e2 e' : Money) :
    (primaryThresholdCheck ww e1 e2 = true → e' ≤ 250000000 →
      primaryThresholdCheck ww e' e2 = false ∧ e' < e1 ∧ ww > 5000000000) ∧
    (primaryThresholdCheck ww e1 e2 = true → e' ≤ 250000000 →
      primaryThresholdCheck ww e1 e' = false ∧ e' < e2 ∧ ww > 5000000000) ∧
    (alternativeThresholdCheck ww e1 e2 = true → e' ≤ 100000000 →
      alternativeThresholdCheck ww e' e2 = false ∧ e' < e1 ∧ ww > 2500000000) ∧
    (alternativeThresholdCheck ww e1 e2 = true → e' ≤ 100000000 →
      alternativeThresholdCheck ww e1 e' = false ∧ e' < e2 ∧ ww > 2500000000) := by
  refine ⟨?_, ?_, ?_, ?_⟩ <;> intro hmet hle <;>
    simp only [primaryThresholdCheck, alternativeThresholdCheck,
      Bool.and_eq_true, decide_eq_true_eq] at hmet <;>
    obtain ⟨⟨hw, h1⟩, h2⟩ := hmet
  · exact ⟨by simp [primaryThresholdCheck, decide_eq_false (not_lt.mpr hle)],
      lt_of_le_of_lt hle h1, hw⟩
  · exact ⟨by simp [primaryThresholdCheck, decide_eq_false (not_lt.mpr hle)],
      lt_of_le_of_lt hle h2, hw⟩
  · exact ⟨by simp [alternativeThresholdCheck, decide_eq_false (not_lt.mpr hle)],
      lt_of_le_of_lt hle h1, hw⟩
  · exact ⟨by simp [alternativeThresholdCheck, decide_eq_false (not_lt.mpr hle)],
      lt_of_le_of_lt hle h2, hw⟩

/-- Witness for C6: both regimes pass at EUR 6B combined and EUR 300M
each; dropping one side to EUR 50M falsifies both regimes. -/
theorem threshold_flag_monotone_witness :
    (primaryThresholdCheck 6000000000 50000000 300000000 = false ∧
      (50000000 : Money) < 300000000 ∧ (6000000000 : Money) > 5000000000) ∧
    (alternativeThresholdCheck 6000000000 300000000 50000000 = false ∧
      (50000000 : Money) < 300000000 ∧ (6000000000 : Money) > 2500000000) :=
  ⟨(threshold_flag_monotone 6000000000 300000000 300000000 50000000).1
      (by decide) (by decide),
   (threshold_flag_monotone 6000000000 300000000 300000000 50000000).2.2.2
      (by decide) (by decide)⟩

/-- Claim C7: for nonnegative worldwide revenue, whenever no preferred
region key is observed in the breakdown (including the absent and the
empty breakdown), the computed EU revenue never exceeds the worldwide
revenue. -/
theorem estimation_policy_bound (revenue : Money)
    (geo : Option (List (String × Money))) (hr : 0 ≤ revenue)
    (h : ∀ g, geo = some g → ∀ r ∈ eu_regions, g.lookup r = none) :
    (calculate_eu_revenue revenue geo).1 ≤ revenue := by
  have hest : revenue * (3 / 10) ≤ revenue := by
    nlinarith
  cases geo with
  | none => simpa [calculate_eu_revenue] using hest
  | some g =>
    by_cases hE : g.isEmpty
    · simpa [calculate_eu_revenue, hE] using hest
    · have h0 : regionLookup eu_regions g = 0 :=
        regionLookup_eq_zero_of_none eu_regions g (h g rfl)
      simp [calculate_eu_revenue, hE, h0, hr]

/-- Witness for C7 at a non-matching breakdown. -/
theorem estimation_policy_bound_witness :
    (calculate_eu_revenue 100 (some [("Asia", 40)])).1 ≤ 100 :=
  estimation_policy_bound 100 (some [("Asia", 40)]) (by norm_num)
    (by intro g hg; cases hg; decide)

/-- Claim C8: when an exception escapes the resolver body (for example
the companies-directory file fails to load), find_ticker returns the
single-element sentinel list with first component the string Error and
the diagnostic message as second component. -/
theorem find_ticker_total_failure (company_name msg : String) (env : TickerEnv)
    (h : find_ticker_run company_name env = Except.error msg) :
    find_ticker company_name env = [("Error", msg)] := by
  unfold find_ticker
  rw [h]

/-- Witness for C8 at an environment whose directory file fails. -/
theorem find_ticker_total_failure_witness :
    find_ticker "Contoso" fail_env =
      [("Error", "No such file or directory: companies_data.json")] :=
  find_ticker_total_failure "Contoso"
    "No such file or directory: companies_data.json" fail_env rfl

/-- Claim C9: the report generator is a deterministic pure function of
the analysis value: two applications to the same MergerAnalysis yield
identical strings. -/
theorem generate_merger_report_deterministic (analysis : MergerAnalysis) :
    generate_merger_report analysis = generate_merger_report analysis := rfl

/-- Claim C10: the estimated flag is true exactly when the breakdown
argument is None; for a present but empty breakdown the 30% estimate is
applied to the value yet the flag is false. -/
theorem estimated_flag_iff_no_breakdown (revenue : Money)
    (geo : Option (List (String × Money))) :
    ((calculate_eu_revenue revenue geo).2 = true ↔ geo = none) ∧
    calculate_eu_revenue revenue (some []) = (revenue * (3 / 10), false) := by
  refine ⟨?_, rfl⟩
  cases geo <;> simp [calculate_eu_revenue]

end TickerEval
